import Mathlib

/-!
Shallow embedding of the tiling-and-clipping core of `src/components/CanvasPaverPreview.vue`.

Numbers are modelled as rationals: the source computes with JS doubles, but every
operation used (addition, multiplication, division, `min`, `max`, `Math.ceil`,
comparisons) is exact on the rational inputs considered here.

The source functions `draw`, `drawStraight`, `drawStaggered`, `drawHerringbone`
and `drawClippedRect` paint on a canvas context; here each is embedded as the
list of clipped rectangles it paints, in paint order.  The three exits of
`draw` (early return on nonpositive dimensions, the `default` branch of the
pattern switch which warns and paints nothing, and a normal run) are kept
distinct in a `DrawResult` sum.
-/

/-- Rectangle `{x, y, width, height}` in output-space (canvas pixel) coordinates. -/
structure Rect where
  x : ℚ
  y : ℚ
  width : ℚ
  height : ℚ
  deriving DecidableEq, Repr

/-- Component props (lines 16-22 of the source): terrace and paver dimensions in
metres, plus an optional pattern string. -/
structure Props where
  terraceWidth : ℚ
  terraceHeight : ℚ
  paverWidth : ℚ
  paverLength : ℚ
  pattern : Option String
  deriving DecidableEq, Repr

/-- Scale and output-space origin/extent computed in `draw` (source lines 127-138). -/
structure Transform where
  scale : ℚ
  x0 : ℚ
  y0 : ℚ
  x1 : ℚ
  y1 : ℚ
  deriving DecidableEq, Repr

/-- Fixed padding margin, `const padding = 20` (source line 127). -/
def padding : ℚ := 20

/-- Embedding of source lines 127-138: available extent, per-axis scales, uniform
scale as their minimum, and the terrace outline's origin/extent. -/
def computeTransform (terraceWidth terraceHeight canvasWidth canvasHeight : ℚ) : Transform :=
  let availW := canvasWidth - 2 * padding
  let availH := canvasHeight - 2 * padding
  let scaleX := availW / terraceWidth
  let scaleY := availH / terraceHeight
  let scale := min scaleX scaleY
  let xMin := padding
  let yMin := padding
  let xMax := xMin + terraceWidth * scale
  let yMax := yMin + terraceHeight * scale
  ⟨scale, xMin, yMin, xMax, yMax⟩

/-- Embedding of `drawClippedRect` (source lines 314-338): returns the clipped
rectangle that would be painted, or `none` when the candidate is discarded as
fully outside `[xMin,xMax] × [yMin,yMax]`. -/
def drawClippedRect (x y width height xMin yMin xMax yMax : ℚ) : Option Rect :=
  let xRight := x + width
  let yBottom := y + height
  if xRight ≤ xMin ∨ x ≥ xMax then none
  else if yBottom ≤ yMin ∨ y ≥ yMax then none
  else
    let clippedX := max x xMin
    let clippedWidth := min xRight xMax - clippedX
    let clippedY := max y yMin
    let clippedHeight := min yBottom yMax - clippedY
    some ⟨clippedX, clippedY, clippedWidth, clippedHeight⟩

/-- Embedding of `drawStraight` (source lines 166-206).  The inline clip test and
clamping on lines 190-198 are literally the body of `drawClippedRect`, so the
emitted rectangle of each cell is `drawClippedRect` of its candidate.  The
`for` loops run `max nbY 0` and `max nbX 0` iterations, hence `Int.toNat` of
the ceilings. -/
def drawStraight (props : Props) (xMin yMin xMax yMax scale : ℚ) : List Rect :=
  let pWidthPx := props.paverWidth * scale
  let pLengthPx := props.paverLength * scale
  let nbX := (⌈props.terraceWidth / props.paverWidth⌉).toNat
  let nbY := (⌈props.terraceHeight / props.paverLength⌉).toNat
  (List.range nbY).flatMap fun (row : ℕ) =>
    (List.range nbX).filterMap fun (col : ℕ) =>
      drawClippedRect (xMin + (col : ℚ) * pWidthPx) (yMin + (row : ℚ) * pLengthPx)
        pWidthPx pLengthPx xMin yMin xMax yMax

/-- Body of the row loop of `drawStaggered` (source lines 229-254): odd-indexed
rows get `offsetX = -pWidthPx / 2`, even rows no offset, then the same inline
clipping as `drawStraight`. -/
def staggeredRowRects (props : Props) (xMin yMin xMax yMax scale : ℚ) (row : ℕ) : List Rect :=
  let pWidthPx := props.paverWidth * scale
  let pLengthPx := props.paverLength * scale
  let nbX := (⌈props.terraceWidth / props.paverWidth⌉).toNat
  let offsetX := if row % 2 ≠ 0 then -pWidthPx / 2 else 0
  (List.range nbX).filterMap fun (col : ℕ) =>
    drawClippedRect (xMin + (col : ℚ) * pWidthPx + offsetX) (yMin + (row : ℚ) * pLengthPx)
      pWidthPx pLengthPx xMin yMin xMax yMax

/-- Embedding of `drawStaggered` (source lines 212-255). -/
def drawStaggered (props : Props) (xMin yMin xMax yMax scale : ℚ) : List Rect :=
  let nbY := (⌈props.terraceHeight / props.paverLength⌉).toNat
  (List.range nbY).flatMap (staggeredRowRects props xMin yMin xMax yMax scale)

/-- Embedding of `drawHerringbone` (source lines 267-309): per block, tile A at
`(baseX, baseY)` sized `pLengthPx × pWidthPx` then tile B at
`(baseX + pLengthPx, baseY)` sized `pWidthPx × pLengthPx`, each through
`drawClippedRect`.  Division by a zero block size yields `0` here where JS
yields `NaN`/`±Infinity`; in every such case both sides run the loop zero
times, so the emitted list agrees. -/
def drawHerringbone (props : Props) (xMin yMin xMax yMax scale : ℚ) : List Rect :=
  let pWidthPx := props.paverWidth * scale
  let pLengthPx := props.paverLength * scale
  let blockSizeX := pLengthPx + pWidthPx
  let blockSizeY := pLengthPx + pWidthPx
  let nbBlockX := (⌈props.terraceWidth * scale / blockSizeX⌉).toNat
  let nbBlockY := (⌈props.terraceHeight * scale / blockSizeY⌉).toNat
  (List.range nbBlockY).flatMap fun (row : ℕ) =>
    (List.range nbBlockX).flatMap fun (col : ℕ) =>
      let baseX := xMin + (col : ℚ) * blockSizeX
      let baseY := yMin + (row : ℚ) * blockSizeY
      (drawClippedRect baseX baseY pLengthPx pWidthPx xMin yMin xMax yMax).toList ++
        (drawClippedRect (baseX + pLengthPx) baseY pWidthPx pLengthPx xMin yMin xMax yMax).toList

/-- Outcome of one `draw` invocation: the early return on nonpositive dimensions
(source lines 122-124), the warn-and-paint-nothing `default` switch branch
(lines 155-158), or the painted rectangle sequence of the selected pattern. -/
inductive DrawResult where
  | degenerate : DrawResult
  | unknownPattern (p : String) : DrawResult
  | drawn (rects : List Rect) : DrawResult
  deriving DecidableEq, Repr

/-- Embedding of `draw` (source lines 103-160): destructure the pattern with
default `"straight"`, validate dimensions, compute the transform, and dispatch
on the pattern string (the `switch` becomes a chain of string comparisons). -/
def draw (props : Props) (canvasWidth canvasHeight : ℚ) : DrawResult :=
  let pattern := props.pattern.getD "straight"
  if props.terraceWidth ≤ 0 ∨ props.terraceHeight ≤ 0 ∨
      props.paverWidth ≤ 0 ∨ props.paverLength ≤ 0 then
    DrawResult.degenerate
  else
    let t := computeTransform props.terraceWidth props.terraceHeight canvasWidth canvasHeight
    if pattern = "straight" then
      DrawResult.drawn (drawStraight props t.x0 t.y0 t.x1 t.y1 t.scale)
    else if pattern = "staggered" then
      DrawResult.drawn (drawStaggered props t.x0 t.y0 t.x1 t.y1 t.scale)
    else if pattern = "herringbone" then
      DrawResult.drawn (drawHerringbone props t.x0 t.y0 t.x1 t.y1 t.scale)
    else
      DrawResult.unknownPattern pattern

/-!
Spec-side candidate sequences.  The spec describes each pattern generator as a
candidate sequence fed through the Boundary Clipper; the following definitions
transcribe those candidate descriptions word for word, to be compared with the
source-derived `drawStraight`/`drawStaggered`/`drawHerringbone` above.
-/

/-- Spec-side candidate of the Straight pattern: cell `(row, col)` is the
rectangle at `(x0 + c*pw, y0 + r*pl)` of size `pw × pl`. -/
def specStraightCandidate (props : Props) (xMin yMin scale : ℚ) (row col : ℕ) : Rect :=
  ⟨xMin + (col : ℚ) * (props.paverWidth * scale),
    yMin + (row : ℚ) * (props.paverLength * scale),
    props.paverWidth * scale, props.paverLength * scale⟩

/-- Spec-side row-major candidate list of the Straight pattern:
rows `r ∈ [0, nbY)` ascending, columns `c ∈ [0, nbX)` ascending. -/
def specStraightCandidates (props : Props) (xMin yMin scale : ℚ) : List Rect :=
  let nbX := (⌈props.terraceWidth / props.paverWidth⌉).toNat
  let nbY := (⌈props.terraceHeight / props.paverLength⌉).toNat
  (List.range nbY).flatMap fun row =>
    (List.range nbX).map (specStraightCandidate props xMin yMin scale row)

/-- Spec-side candidate of the Staggered pattern: the Straight candidate with
`offsetX = -pw/2` added on odd-indexed rows, `0` on even rows. -/
def specStaggeredCandidate (props : Props) (xMin yMin scale : ℚ) (row col : ℕ) : Rect :=
  ⟨xMin + (col : ℚ) * (props.paverWidth * scale) +
      (if row % 2 ≠ 0 then -(props.paverWidth * scale) / 2 else 0),
    yMin + (row : ℚ) * (props.paverLength * scale),
    props.paverWidth * scale, props.paverLength * scale⟩

/-- Spec-side row-major candidate list of the Staggered pattern. -/
def specStaggeredCandidates (props : Props) (xMin yMin scale : ℚ) : List Rect :=
  let nbX := (⌈props.terraceWidth / props.paverWidth⌉).toNat
  let nbY := (⌈props.terraceHeight / props.paverLength⌉).toNat
  (List.range nbY).flatMap fun row =>
    (List.range nbX).map (specStaggeredCandidate props xMin yMin scale row)

/-- Spec-side candidate list of the Herringbone pattern: `block = pl + pw` on
both axes, `nbBlockX = ⌈(W*scale)/block⌉`, `nbBlockY = ⌈(H*scale)/block⌉`,
and each block at `(x0 + c*block, y0 + r*block)` contributes tile A
`(baseX, baseY, pl, pw)` then tile B `(baseX + pl, baseY, pw, pl)`,
in row-major block order. -/
def specHerringboneCandidates (props : Props) (xMin yMin scale : ℚ) : List Rect :=
  let pw := props.paverWidth * scale
  let pl := props.paverLength * scale
  let block := pl + pw
  let nbBlockX := (⌈props.terraceWidth * scale / block⌉).toNat
  let nbBlockY := (⌈props.terraceHeight * scale / block⌉).toNat
  (List.range nbBlockY).flatMap fun (row : ℕ) =>
    (List.range nbBlockX).flatMap fun (col : ℕ) =>
      let baseX := xMin + (col : ℚ) * block
      let baseY := yMin + (row : ℚ) * block
      [⟨baseX, baseY, pl, pw⟩, ⟨baseX + pl, baseY, pw, pl⟩]

/-- Boundary Clipper applied to a candidate rectangle. -/
def clipCandidate (xMin yMin xMax yMax : ℚ) (c : Rect) : Option Rect :=
  drawClippedRect c.x c.y c.width c.height xMin yMin xMax yMax

lemma filterMap_pair {α β : Type} (f : α → Option β) (a b : α) :
    [a, b].filterMap f = (f a).toList ++ (f b).toList := by
  cases h1 : f a <;> cases h2 : f b <;> simp [List.filterMap_cons, h1, h2]

/-- Refinement of the Straight generator: the painted rectangles are exactly
the spec-side candidates fed, in order, through the Boundary Clipper. -/
lemma drawStraight_eq_clipped_candidates (props : Props) (xMin yMin xMax yMax scale : ℚ) :
    drawStraight props xMin yMin xMax yMax scale =
      (specStraightCandidates props xMin yMin scale).filterMap
        (clipCandidate xMin yMin xMax yMax) := by
  unfold drawStraight specStraightCandidates
  rw [List.filterMap_flatMap]
  exact List.flatMap_congr fun row _ => by
    rw [List.filterMap_map]
    rfl

/-- Refinement of the Staggered generator's row body. -/
lemma staggeredRowRects_eq_clipped_candidates (props : Props)
    (xMin yMin xMax yMax scale : ℚ) (row : ℕ) :
    staggeredRowRects props xMin yMin xMax yMax scale row =
      ((List.range (⌈props.terraceWidth / props.paverWidth⌉).toNat).map
        (specStaggeredCandidate props xMin yMin scale row)).filterMap
          (clipCandidate xMin yMin xMax yMax) := by
  unfold staggeredRowRects
  rw [List.filterMap_map]
  rfl

/-- Refinement of the Staggered generator. -/
lemma drawStaggered_eq_clipped_candidates (props : Props) (xMin yMin xMax yMax scale : ℚ) :
    drawStaggered props xMin yMin xMax yMax scale =
      (specStaggeredCandidates props xMin yMin scale).filterMap
        (clipCandidate xMin yMin xMax yMax) := by
  unfold drawStaggered specStaggeredCandidates
  rw [List.filterMap_flatMap]
  exact List.flatMap_congr fun row _ =>
    staggeredRowRects_eq_clipped_candidates props xMin yMin xMax yMax scale row

/-- Refinement of the Herringbone generator. -/
lemma drawHerringbone_eq_clipped_candidates (props : Props) (xMin yMin xMax yMax scale : ℚ) :
    drawHerringbone props xMin yMin xMax yMax scale =
      (specHerringboneCandidates props xMin yMin scale).filterMap
        (clipCandidate xMin yMin xMax yMax) := by
  unfold drawHerringbone specHerringboneCandidates
  rw [List.filterMap_flatMap]
  exact List.flatMap_congr fun row _ => by
    rw [List.filterMap_flatMap]
    exact List.flatMap_congr fun col _ => by
      rw [filterMap_pair]
      rfl

/-- Characterization of `drawClippedRect`: the two early returns amount to the
single four-way discard disjunction of the spec, and otherwise the clamped
rectangle is produced. -/
lemma drawClippedRect_eq (x y width height xMin yMin xMax yMax : ℚ) :
    drawClippedRect x y width height xMin yMin xMax yMax =
      if x + width ≤ xMin ∨ x ≥ xMax ∨ y + height ≤ yMin ∨ y ≥ yMax then none
      else some ⟨max x xMin, max y yMin,
        min (x + width) xMax - max x xMin, min (y + height) yMax - max y yMin⟩ := by
  unfold drawClippedRect
  by_cases h1 : x + width ≤ xMin ∨ x ≥ xMax
  · rcases h1 with h | h <;> simp [h]
  · by_cases h2 : y + height ≤ yMin ∨ y ≥ yMax
    · simp only [if_neg h1]
      rcases h2 with h | h <;> simp [h, h1]
    · have hg : ¬(x + width ≤ xMin ∨ x ≥ xMax ∨ y + height ≤ yMin ∨ y ≥ yMax) := by
        tauto
      simp [if_neg h1, if_neg h2, if_neg hg]

/-- Emitted clipped rectangles satisfy the ClippedRect invariants, provided the
candidate has positive dimensions and the extent is nondegenerate. -/
lemma drawClippedRect_some_invariants {x y width height xMin yMin xMax yMax : ℚ} {r : Rect}
    (hw : 0 < width) (hh : 0 < height) (hx : xMin < xMax) (hy : yMin < yMax)
    (hclip : drawClippedRect x y width height xMin yMin xMax yMax = some r) :
    xMin ≤ r.x ∧ yMin ≤ r.y ∧ r.x + r.width ≤ xMax ∧ r.y + r.height ≤ yMax ∧
      0 < r.width ∧ 0 < r.height := by
  rw [drawClippedRect_eq] at hclip
  split_ifs at hclip with hg
  push_neg at hg
  obtain ⟨hg1, hg2, hg3, hg4⟩ := hg
  obtain rfl : r = ⟨max x xMin, max y yMin,
      min (x + width) xMax - max x xMin, min (y + height) yMax - max y yMin⟩ :=
    (Option.some_inj.mp hclip).symm
  have hxlt : max x xMin < min (x + width) xMax :=
    max_lt (lt_min (by linarith) hg2) (lt_min (by linarith) hx)
  have hylt : max y yMin < min (y + height) yMax :=
    max_lt (lt_min (by linarith) hg4) (lt_min (by linarith) hy)
  dsimp only
  refine ⟨le_max_right _ _, le_max_right _ _, ?_, ?_, by linarith, by linarith⟩
  · linarith [min_le_right (x + width) xMax]
  · linarith [min_le_right (y + height) yMax]

/-- Straight candidates all have size `pw × pl`. -/
lemma mem_specStraightCandidates {props : Props} {xMin yMin scale : ℚ} {c : Rect}
    (h : c ∈ specStraightCandidates props xMin yMin scale) :
    c.width = props.paverWidth * scale ∧ c.height = props.paverLength * scale := by
  unfold specStraightCandidates at h
  simp only [List.mem_flatMap, List.mem_map, List.mem_range] at h
  obtain ⟨row, -, col, -, rfl⟩ := h
  exact ⟨rfl, rfl⟩

/-- Staggered candidates all have size `pw × pl`. -/
lemma mem_specStaggeredCandidates {props : Props} {xMin yMin scale : ℚ} {c : Rect}
    (h : c ∈ specStaggeredCandidates props xMin yMin scale) :
    c.width = props.paverWidth * scale ∧ c.height = props.paverLength * scale := by
  unfold specStaggeredCandidates at h
  simp only [List.mem_flatMap, List.mem_map, List.mem_range] at h
  obtain ⟨row, -, col, -, rfl⟩ := h
  exact ⟨rfl, rfl⟩

/-- Herringbone candidates have size `pl × pw` (tile A) or `pw × pl` (tile B). -/
lemma mem_specHerringboneCandidates {props : Props} {xMin yMin scale : ℚ} {c : Rect}
    (h : c ∈ specHerringboneCandidates props xMin yMin scale) :
    (c.width = props.paverLength * scale ∧ c.height = props.paverWidth * scale) ∨
      (c.width = props.paverWidth * scale ∧ c.height = props.paverLength * scale) := by
  unfold specHerringboneCandidates at h
  simp only [List.mem_flatMap, List.mem_range, List.mem_cons,
    List.mem_singleton, List.not_mem_nil, or_false] at h
  obtain ⟨row, -, col, -, h⟩ := h
  rcases h with rfl | rfl
  · exact Or.inl ⟨rfl, rfl⟩
  · exact Or.inr ⟨rfl, rfl⟩

/-- Components of the computed transform, unfolded. -/
lemma computeTransform_def (terraceWidth terraceHeight canvasWidth canvasHeight : ℚ) :
    computeTransform terraceWidth terraceHeight canvasWidth canvasHeight =
      ⟨min ((canvasWidth - 2 * padding) / terraceWidth)
          ((canvasHeight - 2 * padding) / terraceHeight),
        padding, padding,
        padding + terraceWidth *
          min ((canvasWidth - 2 * padding) / terraceWidth)
            ((canvasHeight - 2 * padding) / terraceHeight),
        padding + terraceHeight *
          min ((canvasWidth - 2 * padding) / terraceWidth)
            ((canvasHeight - 2 * padding) / terraceHeight)⟩ :=
  rfl

/-- Positivity of the scale when the plane and the usable viewport extent are
both positive. -/
lemma computeTransform_scale_pos {W H cw ch : ℚ} (hW : 0 < W) (hH : 0 < H)
    (hcw : 0 < cw - 2 * padding) (hch : 0 < ch - 2 * padding) :
    0 < (computeTransform W H cw ch).scale :=
  lt_min (div_pos hcw hW) (div_pos hch hH)

/-- Nonpositivity of the scale when the usable viewport extent is nonpositive
on either axis. -/
lemma computeTransform_scale_nonpos {W H cw ch : ℚ} (hW : 0 < W) (hH : 0 < H)
    (h : cw - 2 * padding ≤ 0 ∨ ch - 2 * padding ≤ 0) :
    (computeTransform W H cw ch).scale ≤ 0 := by
  rcases h with h | h
  · exact le_trans (min_le_left _ _) (div_nonpos_iff.mpr (Or.inr ⟨h, le_of_lt hW⟩))
  · exact le_trans (min_le_right _ _) (div_nonpos_iff.mpr (Or.inr ⟨h, le_of_lt hH⟩))

/-- Discard happens whenever the candidate's right edge does not pass `xMin`. -/
lemma drawClippedRect_eq_none_left {x y width height xMin yMin xMax yMax : ℚ}
    (h : x + width ≤ xMin) :
    drawClippedRect x y width height xMin yMin xMax yMax = none := by
  rw [drawClippedRect_eq, if_pos (Or.inl h)]

/-- With a nonpositive scaled paver width every Straight cell is discarded. -/
lemma drawStraight_eq_nil {props : Props} {xMin yMin xMax yMax scale : ℚ}
    (hpw : props.paverWidth * scale ≤ 0) :
    drawStraight props xMin yMin xMax yMax scale = [] := by
  unfold drawStraight
  refine List.flatMap_eq_nil_iff.mpr fun row _ => List.filterMap_eq_nil_iff.mpr fun col _ => ?_
  refine drawClippedRect_eq_none_left ?_
  have hmul : ((col : ℚ) + 1) * (props.paverWidth * scale) ≤ 0 :=
    mul_nonpos_of_nonneg_of_nonpos (by positivity) hpw
  linarith

/-- With a nonpositive scaled paver width every Staggered cell is discarded. -/
lemma drawStaggered_eq_nil {props : Props} {xMin yMin xMax yMax scale : ℚ}
    (hpw : props.paverWidth * scale ≤ 0) :
    drawStaggered props xMin yMin xMax yMax scale = [] := by
  unfold drawStaggered
  refine List.flatMap_eq_nil_iff.mpr fun row _ => ?_
  unfold staggeredRowRects
  refine List.filterMap_eq_nil_iff.mpr fun col _ => ?_
  refine drawClippedRect_eq_none_left ?_
  have hmul : ((col : ℚ) + 1) * (props.paverWidth * scale) ≤ 0 :=
    mul_nonpos_of_nonneg_of_nonpos (by positivity) hpw
  by_cases hrow : row % 2 ≠ 0
  · rw [if_pos hrow]
    have hmul2 : ((col : ℚ) + 1 / 2) * (props.paverWidth * scale) ≤ 0 :=
      mul_nonpos_of_nonneg_of_nonpos (by positivity) hpw
    linarith
  · rw [if_neg hrow]
    linarith

/-- With nonpositive scaled paver dimensions every Herringbone tile is discarded. -/
lemma drawHerringbone_eq_nil {props : Props} {xMin yMin xMax yMax scale : ℚ}
    (hpw : props.paverWidth * scale ≤ 0) (hpl : props.paverLength * scale ≤ 0) :
    drawHerringbone props xMin yMin xMax yMax scale = [] := by
  unfold drawHerringbone
  refine List.flatMap_eq_nil_iff.mpr fun row _ => List.flatMap_eq_nil_iff.mpr fun col _ => ?_
  have hblock : ((col : ℚ)) * (props.paverLength * scale + props.paverWidth * scale) ≤ 0 :=
    mul_nonpos_of_nonneg_of_nonpos (by positivity) (by linarith)
  have hblock1 : ((col : ℚ) + 1) * (props.paverLength * scale + props.paverWidth * scale) ≤ 0 :=
    mul_nonpos_of_nonneg_of_nonpos (by positivity) (by linarith)
  dsimp only
  rw [drawClippedRect_eq_none_left (by linarith), drawClippedRect_eq_none_left (by linarith)]
  rfl

/-- Dispatch fact: with valid dimensions and an effective pattern string
`"straight"`, `draw` runs the Straight generator on the computed transform. -/
lemma draw_eq_straight {props : Props} (cw ch : ℚ)
    (hp : props.pattern.getD "straight" = "straight")
    (hgeom : ¬(props.terraceWidth ≤ 0 ∨ props.terraceHeight ≤ 0 ∨
      props.paverWidth ≤ 0 ∨ props.paverLength ≤ 0)) :
    draw props cw ch = DrawResult.drawn (drawStraight props
      (computeTransform props.terraceWidth props.terraceHeight cw ch).x0
      (computeTransform props.terraceWidth props.terraceHeight cw ch).y0
      (computeTransform props.terraceWidth props.terraceHeight cw ch).x1
      (computeTransform props.terraceWidth props.terraceHeight cw ch).y1
      (computeTransform props.terraceWidth props.terraceHeight cw ch).scale) := by
  unfold draw
  rw [if_neg hgeom, hp, if_pos rfl]

/-- Dispatch fact for the `"staggered"` branch. -/
lemma draw_eq_staggered {props : Props} (cw ch : ℚ)
    (hp : props.pattern.getD "straight" = "staggered")
    (hgeom : ¬(props.terraceWidth ≤ 0 ∨ props.terraceHeight ≤ 0 ∨
      props.paverWidth ≤ 0 ∨ props.paverLength ≤ 0)) :
    draw props cw ch = DrawResult.drawn (drawStaggered props
      (computeTransform props.terraceWidth props.terraceHeight cw ch).x0
      (computeTransform props.terraceWidth props.terraceHeight cw ch).y0
      (computeTransform props.terraceWidth props.terraceHeight cw ch).x1
      (computeTransform props.terraceWidth props.terraceHeight cw ch).y1
      (computeTransform props.terraceWidth props.terraceHeight cw ch).scale) := by
  unfold draw
  rw [if_neg hgeom, hp, if_neg (by simp), if_pos rfl]

/-- Dispatch fact for the `"herringbone"` branch. -/
lemma draw_eq_herringbone {props : Props} (cw ch : ℚ)
    (hp : props.pattern.getD "straight" = "herringbone")
    (hgeom : ¬(props.terraceWidth ≤ 0 ∨ props.terraceHeight ≤ 0 ∨
      props.paverWidth ≤ 0 ∨ props.paverLength ≤ 0)) :
    draw props cw ch = DrawResult.drawn (drawHerringbone props
      (computeTransform props.terraceWidth props.terraceHeight cw ch).x0
      (computeTransform props.terraceWidth props.terraceHeight cw ch).y0
      (computeTransform props.terraceWidth props.terraceHeight cw ch).x1
      (computeTransform props.terraceWidth props.terraceHeight cw ch).y1
      (computeTransform props.terraceWidth props.terraceHeight cw ch).scale) := by
  unfold draw
  rw [if_neg hgeom, hp, if_neg (by simp), if_neg (by simp), if_pos rfl]

/-- Demo input of the spec's worked examples: 4 m × 3 m terrace, 1 m × 1 m paver. -/
def propsDemo : Props := ⟨4, 3, 1, 1, some "straight"⟩

/-- Demo input with the staggered pattern selected. -/
def propsDemoStaggered : Props := ⟨4, 3, 1, 1, some "staggered"⟩

/-- Demo input with the herringbone pattern selected. -/
def propsDemoHerringbone : Props := ⟨4, 3, 1, 1, some "herringbone"⟩

/-- Transform of the demo input on an 800 × 600 canvas: `availW = 760`,
`availH = 560`, `scaleX = 190`, `scaleY = 560/3`, `scale = 560/3`. -/
lemma demo_transform : computeTransform 4 3 800 600 = ⟨560/3, 20, 20, 2300/3, 580⟩ := by
  rw [computeTransform_def]
  norm_num [padding, min_def, Transform.mk.injEq]

/-- Demo exact straight tiling: the 12 rectangles of the 4 × 3 grid at scale
`560/3`, in row-major order. -/
def demoRects12 : List Rect :=
  [⟨20, 20, 560/3, 560/3⟩, ⟨620/3, 20, 560/3, 560/3⟩,
    ⟨1180/3, 20, 560/3, 560/3⟩, ⟨580, 20, 560/3, 560/3⟩,
    ⟨20, 620/3, 560/3, 560/3⟩, ⟨620/3, 620/3, 560/3, 560/3⟩,
    ⟨1180/3, 620/3, 560/3, 560/3⟩, ⟨580, 620/3, 560/3, 560/3⟩,
    ⟨20, 1180/3, 560/3, 560/3⟩, ⟨620/3, 1180/3, 560/3, 560/3⟩,
    ⟨1180/3, 1180/3, 560/3, 560/3⟩, ⟨580, 1180/3, 560/3, 560/3⟩]

lemma demo_ceil_four : (⌈(4:ℚ) / 1⌉).toNat = 4 := by
  rw [show ⌈(4:ℚ) / 1⌉ = 4 by norm_num]
  decide

lemma demo_ceil_three : (⌈(3:ℚ) / 1⌉).toNat = 3 := by
  rw [show ⌈(3:ℚ) / 1⌉ = 3 by norm_num]
  decide

/-- Straight generator output on the demo input. -/
lemma demo_drawStraight :
    drawStraight propsDemo 20 20 (2300/3) 580 (560/3) = demoRects12 := by
  simp only [drawStraight, propsDemo, demo_ceil_three, demo_ceil_four]
  simp only [List.range_succ, List.range_zero, List.flatMap_cons, List.flatMap_nil,
    List.filterMap_cons, List.filterMap_nil, List.append_nil, List.nil_append, List.append_assoc]
  norm_num [drawClippedRect, demoRects12, List.filterMap_cons, List.filterMap_nil,
    Nat.cast_ofNat, Rect.mk.injEq]

/-- Straight spec-side candidates on the demo input: the same 12 rectangles. -/
lemma demo_straightCandidates :
    specStraightCandidates propsDemo 20 20 (560/3) = demoRects12 := by
  simp only [specStraightCandidates, propsDemo, demo_ceil_three, demo_ceil_four]
  simp only [List.range_succ, List.range_zero, List.flatMap_cons, List.flatMap_nil,
    List.map_cons, List.map_nil, List.append_nil, List.nil_append, List.append_assoc]
  norm_num [specStraightCandidate, demoRects12, Nat.cast_ofNat, Rect.mk.injEq]

/-- C3: for every Plane and Viewport the Transform Calculator returns
`scale = min((Vw-2p)/W, (Vh-2p)/H)` with origin `(p, p)` and extent
`(p + W*scale, p + H*scale)`; for `W=4, H=3, Vw=800, Vh=600, p=20` this is
`scale = 560/3`, the minimum of `scaleX = 190` and `scaleY = 560/3`. -/
theorem C3_transform_calculator (W H cw ch : ℚ) :
    computeTransform W H cw ch =
      ⟨min ((cw - 2 * padding) / W) ((ch - 2 * padding) / H), padding, padding,
        padding + W * min ((cw - 2 * padding) / W) ((ch - 2 * padding) / H),
        padding + H * min ((cw - 2 * padding) / W) ((ch - 2 * padding) / H)⟩ ∧
    computeTransform 4 3 800 600 = ⟨560/3, 20, 20, 2300/3, 580⟩ ∧
    ((800 - 2 * padding : ℚ) / 4 = 190 ∧ (600 - 2 * padding : ℚ) / 3 = 560/3 ∧
      min (190 : ℚ) (560/3) = 560/3) :=
  ⟨computeTransform_def W H cw ch, demo_transform, by norm_num [padding, min_def]⟩

/-- C4: the Straight generator emits exactly the clipped images, in row-major
order, of the candidates `(x0 + c*pw, y0 + r*pl, pw, pl)` for
`r ∈ [0, nbY)`, `c ∈ [0, nbX)`; on the demo input `W=4, H=3, unit=(1,1)`
(scale `560/3`) this is exactly 12 candidates, all emitted untrimmed. -/
theorem C4_straight_generator (props : Props) (xMin yMin xMax yMax scale : ℚ) :
    drawStraight props xMin yMin xMax yMax scale =
      (specStraightCandidates props xMin yMin scale).filterMap
        (clipCandidate xMin yMin xMax yMax) ∧
    specStraightCandidates propsDemo 20 20 (560/3) = demoRects12 ∧
    drawStraight propsDemo 20 20 (2300/3) 580 (560/3) = demoRects12 ∧
    demoRects12.length = 12 :=
  ⟨drawStraight_eq_clipped_candidates props xMin yMin xMax yMax scale,
    demo_straightCandidates, demo_drawStraight, by simp [demoRects12]⟩

/-- C7: the Boundary Clipper discards a candidate exactly when
`x+width ≤ x0 ∨ x ≥ x1 ∨ y+height ≤ y0 ∨ y ≥ y1`, and otherwise emits
`(max(x,x0), max(y,y0), min(x+width,x1)-max(x,x0), min(y+height,y1)-max(y,y0))`;
in particular a rectangle touching the boundary with zero overlap, such as
`(0,10,10,10)` against extent `(10,10,20,20)`, is discarded rather than kept
as a zero-area rectangle. -/
theorem C7_boundary_clipper (x y width height x0 y0 x1 y1 : ℚ) :
    drawClippedRect x y width height x0 y0 x1 y1 =
      (if x + width ≤ x0 ∨ x ≥ x1 ∨ y + height ≤ y0 ∨ y ≥ y1 then none
       else some ⟨max x x0, max y y0, min (x + width) x1 - max x x0,
         min (y + height) y1 - max y y0⟩) ∧
    drawClippedRect 0 10 10 10 10 10 20 20 = none :=
  ⟨drawClippedRect_eq x y width height x0 y0 x1 y1, by norm_num [drawClippedRect]⟩

/-- C8: clipping is the identity on rectangles already fully inside the extent,
and a rectangle with positive overlap straddling exactly one edge has exactly
that coordinate and the corresponding dimension changed, the other pair kept. -/
theorem C8_clipping_idempotent (x y width height x0 y0 x1 y1 : ℚ) :
    (x0 ≤ x → y0 ≤ y → x + width ≤ x1 → y + height ≤ y1 → 0 < width → 0 < height →
      drawClippedRect x y width height x0 y0 x1 y1 = some ⟨x, y, width, height⟩) ∧
    (x < x0 → x0 < x + width → x + width ≤ x1 → y0 ≤ y → y + height ≤ y1 → 0 < height →
      drawClippedRect x y width height x0 y0 x1 y1 = some ⟨x0, y, x + width - x0, height⟩) ∧
    (x1 < x + width → x < x1 → x0 ≤ x → y0 ≤ y → y + height ≤ y1 → 0 < height →
      drawClippedRect x y width height x0 y0 x1 y1 = some ⟨x, y, x1 - x, height⟩) ∧
    (y < y0 → y0 < y + height → y + height ≤ y1 → x0 ≤ x → x + width ≤ x1 → 0 < width →
      drawClippedRect x y width height x0 y0 x1 y1 = some ⟨x, y0, width, y + height - y0⟩) ∧
    (y1 < y + height → y < y1 → y0 ≤ y → x0 ≤ x → x + width ≤ x1 → 0 < width →
      drawClippedRect x y width height x0 y0 x1 y1 = some ⟨x, y, width, y1 - y⟩) := by
  refine ⟨?_, ?_, ?_, ?_, ?_⟩
  · intro h1 h2 h3 h4 h5 h6
    rw [drawClippedRect_eq,
      if_neg (by push_neg; exact ⟨by linarith, by linarith, by linarith, by linarith⟩)]
    rw [max_eq_left h1, max_eq_left h2, min_eq_left h3, min_eq_left h4]
    simp only [Option.some.injEq, Rect.mk.injEq, eq_self_iff_true, true_and, and_true]
    constructor <;> ring
  · intro h1 h2 h3 h4 h5 h6
    rw [drawClippedRect_eq,
      if_neg (by push_neg; exact ⟨by linarith, by linarith, by linarith, by linarith⟩)]
    rw [max_eq_right (le_of_lt h1), max_eq_left h4, min_eq_left h3, min_eq_left h5]
    simp only [Option.some.injEq, Rect.mk.injEq, eq_self_iff_true, true_and, and_true]
    ring
  · intro h1 h2 h3 h4 h5 h6
    rw [drawClippedRect_eq,
      if_neg (by push_neg; exact ⟨by linarith, by linarith, by linarith, by linarith⟩)]
    rw [max_eq_left h3, max_eq_left h4, min_eq_right (le_of_lt h1), min_eq_left h5]
    simp only [Option.some.injEq, Rect.mk.injEq, eq_self_iff_true, true_and, and_true]
    ring
  · intro h1 h2 h3 h4 h5 h6
    rw [drawClippedRect_eq,
      if_neg (by push_neg; exact ⟨by linarith, by linarith, by linarith, by linarith⟩)]
    rw [max_eq_left h4, max_eq_right (le_of_lt h1), min_eq_left h5, min_eq_left h3]
    simp only [Option.some.injEq, Rect.mk.injEq, eq_self_iff_true, true_and, and_true]
    ring
  · intro h1 h2 h3 h4 h5 h6
    rw [drawClippedRect_eq,
      if_neg (by push_neg; exact ⟨by linarith, by linarith, by linarith, by linarith⟩)]
    rw [max_eq_left h4, max_eq_left h3, min_eq_left h5, min_eq_right (le_of_lt h1)]
    simp only [Option.some.injEq, Rect.mk.injEq, eq_self_iff_true, true_and, and_true]
    ring

/-- Witness for C8 at concrete inputs: an interior rectangle is returned
unchanged, and a left-edge straddler has only `x` and `width` adjusted. -/
theorem C8_witness :
    drawClippedRect 30 40 5 6 20 20 100 100 = some ⟨30, 40, 5, 6⟩ ∧
    drawClippedRect 15 40 10 6 20 20 100 100 = some ⟨20, 40, 15 + 10 - 20, 6⟩ :=
  ⟨(C8_clipping_idempotent 30 40 5 6 20 20 100 100).1 (by norm_num) (by norm_num)
      (by norm_num) (by norm_num) (by norm_num) (by norm_num),
    (C8_clipping_idempotent 15 40 10 6 20 20 100 100).2.1 (by norm_num) (by norm_num)
      (by norm_num) (by norm_num) (by norm_num) (by norm_num)⟩

/-- C1: with positive plane dimensions, positive unit dimensions, and positive
usable viewport extent on both axes, every rectangle emitted by one `draw`
invocation — whatever the pattern — satisfies the ClippedRect invariants
relative to the transform's extent: `x0 ≤ x`, `y0 ≤ y`, `x+width ≤ x1`,
`y+height ≤ y1`, `width > 0`, `height > 0`; failing rectangles are dropped
by the clipper, never emitted as zero-size. -/
theorem C1_clipped_invariants (props : Props) (cw ch : ℚ) (rects : List Rect) (r : Rect)
    (hW : 0 < props.terraceWidth) (hH : 0 < props.terraceHeight)
    (hpw : 0 < props.paverWidth) (hpl : 0 < props.paverLength)
    (hcw : 0 < cw - 2 * padding) (hch : 0 < ch - 2 * padding)
    (hdraw : draw props cw ch = DrawResult.drawn rects) (hr : r ∈ rects) :
    (computeTransform props.terraceWidth props.terraceHeight cw ch).x0 ≤ r.x ∧
    (computeTransform props.terraceWidth props.terraceHeight cw ch).y0 ≤ r.y ∧
    r.x + r.width ≤ (computeTransform props.terraceWidth props.terraceHeight cw ch).x1 ∧
    r.y + r.height ≤ (computeTransform props.terraceWidth props.terraceHeight cw ch).y1 ∧
    0 < r.width ∧ 0 < r.height := by
  have hgeom : ¬(props.terraceWidth ≤ 0 ∨ props.terraceHeight ≤ 0 ∨
      props.paverWidth ≤ 0 ∨ props.paverLength ≤ 0) := by
    push_neg
    exact ⟨hW, hH, hpw, hpl⟩
  simp only [draw] at hdraw
  rw [if_neg hgeom] at hdraw
  set t := computeTransform props.terraceWidth props.terraceHeight cw ch with ht
  have hs : 0 < t.scale := computeTransform_scale_pos hW hH hcw hch
  have hpws : 0 < props.paverWidth * t.scale := mul_pos hpw hs
  have hpls : 0 < props.paverLength * t.scale := mul_pos hpl hs
  have hx1eq : t.x1 = t.x0 + props.terraceWidth * t.scale := rfl
  have hy1eq : t.y1 = t.y0 + props.terraceHeight * t.scale := rfl
  have hx01 : t.x0 < t.x1 := by
    rw [hx1eq]
    linarith [mul_pos hW hs]
  have hy01 : t.y0 < t.y1 := by
    rw [hy1eq]
    linarith [mul_pos hH hs]
  split_ifs at hdraw with h1 h2 h3
  · injection hdraw with h
    subst h
    rw [drawStraight_eq_clipped_candidates] at hr
    obtain ⟨c, hc, hclip⟩ := List.mem_filterMap.mp hr
    obtain ⟨hcwidth, hcheight⟩ := mem_specStraightCandidates hc
    exact drawClippedRect_some_invariants (by rw [hcwidth]; exact hpws)
      (by rw [hcheight]; exact hpls) hx01 hy01 hclip
  · injection hdraw with h
    subst h
    rw [drawStaggered_eq_clipped_candidates] at hr
    obtain ⟨c, hc, hclip⟩ := List.mem_filterMap.mp hr
    obtain ⟨hcwidth, hcheight⟩ := mem_specStaggeredCandidates hc
    exact drawClippedRect_some_invariants (by rw [hcwidth]; exact hpws)
      (by rw [hcheight]; exact hpls) hx01 hy01 hclip
  · injection hdraw with h
    subst h
    rw [drawHerringbone_eq_clipped_candidates] at hr
    obtain ⟨c, hc, hclip⟩ := List.mem_filterMap.mp hr
    rcases mem_specHerringboneCandidates hc with ⟨hcwidth, hcheight⟩ | ⟨hcwidth, hcheight⟩
    · exact drawClippedRect_some_invariants (by rw [hcwidth]; exact hpls)
        (by rw [hcheight]; exact hpws) hx01 hy01 hclip
    · exact drawClippedRect_some_invariants (by rw [hcwidth]; exact hpws)
        (by rw [hcheight]; exact hpls) hx01 hy01 hclip

/-- Full demo pipeline run: the straight pattern on the demo input over an
800 × 600 canvas paints exactly the 12 grid rectangles. -/
lemma demo_draw : draw propsDemo 800 600 = DrawResult.drawn demoRects12 := by
  rw [draw_eq_straight 800 600 (by rfl) (by norm_num [propsDemo])]
  rw [show computeTransform propsDemo.terraceWidth propsDemo.terraceHeight 800 600 =
    ⟨560/3, 20, 20, 2300/3, 580⟩ from demo_transform]
  dsimp only
  rw [demo_drawStraight]

/-- Witness for C1: the demo pipeline's first emitted rectangle satisfies all
six ClippedRect invariants. -/
theorem C1_witness :
    (computeTransform propsDemo.terraceWidth propsDemo.terraceHeight 800 600).x0 ≤
        (Rect.mk 20 20 (560/3) (560/3)).x ∧
    (computeTransform propsDemo.terraceWidth propsDemo.terraceHeight 800 600).y0 ≤
        (Rect.mk 20 20 (560/3) (560/3)).y ∧
    (Rect.mk 20 20 (560/3) (560/3)).x + (Rect.mk 20 20 (560/3) (560/3)).width ≤
        (computeTransform propsDemo.terraceWidth propsDemo.terraceHeight 800 600).x1 ∧
    (Rect.mk 20 20 (560/3) (560/3)).y + (Rect.mk 20 20 (560/3) (560/3)).height ≤
        (computeTransform propsDemo.terraceWidth propsDemo.terraceHeight 800 600).y1 ∧
    0 < (Rect.mk 20 20 (560/3) (560/3)).width ∧
    0 < (Rect.mk 20 20 (560/3) (560/3)).height :=
  C1_clipped_invariants propsDemo 800 600 demoRects12 ⟨20, 20, 560/3, 560/3⟩
    (by norm_num [propsDemo]) (by norm_num [propsDemo]) (by norm_num [propsDemo])
    (by norm_num [propsDemo]) (by norm_num [padding]) (by norm_num [padding])
    demo_draw (by simp [demoRects12])

/-- Concrete run with a viewport whose usable extent `10 - 2*20` is negative:
`draw` does not short-circuit; it reaches the Straight generator, whose every
cell the clipper then discards, yielding an empty painted sequence. -/
lemma draw_unit_smallViewport :
    draw ⟨1, 1, 1, 1, some "straight"⟩ 10 600 = DrawResult.drawn [] := by
  rw [draw_eq_straight 10 600 (by rfl) (by norm_num)]
  congr 1
  refine drawStraight_eq_nil ?_
  norm_num [computeTransform_def, padding, min_def]

/-- C2 counterexample: at `W=H=1`, `unit=(1,1)`, `Vw=10`, `Vh=600` the usable
viewport extent `Vw - 2p = -30` is negative, yet `draw` does not signal the
degenerate case: it proceeds into pattern generation (and paints nothing). -/
theorem C2_counterexample :
    draw ⟨1, 1, 1, 1, some "straight"⟩ 10 600 = DrawResult.drawn [] ∧
    draw ⟨1, 1, 1, 1, some "straight"⟩ 10 600 ≠ DrawResult.degenerate ∧
    (10 : ℚ) - 2 * padding ≤ 0 := by
  refine ⟨draw_unit_smallViewport, ?_, by norm_num [padding]⟩
  rw [draw_unit_smallViewport]
  simp

/-- C2 (amended): `draw` short-circuits with the degenerate signal exactly when
one of the plane or unit dimensions is nonpositive; a nonpositive usable
viewport extent does not short-circuit, but every pattern branch then paints
an empty rectangle list. -/
theorem C2_degenerate_geometry (props : Props) (cw ch : ℚ) :
    (draw props cw ch = DrawResult.degenerate ↔
      props.terraceWidth ≤ 0 ∨ props.terraceHeight ≤ 0 ∨
        props.paverWidth ≤ 0 ∨ props.paverLength ≤ 0) ∧
    (0 < props.terraceWidth → 0 < props.terraceHeight → 0 < props.paverWidth →
      0 < props.paverLength → cw - 2 * padding ≤ 0 ∨ ch - 2 * padding ≤ 0 →
      ∀ rects, draw props cw ch = DrawResult.drawn rects → rects = []) := by
  constructor
  · constructor
    · intro h
      by_contra hc
      simp only [draw] at h
      rw [if_neg hc] at h
      split_ifs at h
    · intro h
      simp only [draw]
      rw [if_pos h]
  · intro hW hH hpw hpl havail rects hdraw
    have hs : (computeTransform props.terraceWidth props.terraceHeight cw ch).scale ≤ 0 :=
      computeTransform_scale_nonpos hW hH havail
    have hpws : props.paverWidth *
        (computeTransform props.terraceWidth props.terraceHeight cw ch).scale ≤ 0 :=
      mul_nonpos_of_nonneg_of_nonpos (le_of_lt hpw) hs
    have hpls : props.paverLength *
        (computeTransform props.terraceWidth props.terraceHeight cw ch).scale ≤ 0 :=
      mul_nonpos_of_nonneg_of_nonpos (le_of_lt hpl) hs
    have hgeom : ¬(props.terraceWidth ≤ 0 ∨ props.terraceHeight ≤ 0 ∨
        props.paverWidth ≤ 0 ∨ props.paverLength ≤ 0) := by
      push_neg
      exact ⟨hW, hH, hpw, hpl⟩
    simp only [draw] at hdraw
    rw [if_neg hgeom] at hdraw
    split_ifs at hdraw
    · injection hdraw with h
      rw [← h]
      exact drawStraight_eq_nil hpws
    · injection hdraw with h
      rw [← h]
      exact drawStaggered_eq_nil hpws
    · injection hdraw with h
      rw [← h]
      exact drawHerringbone_eq_nil hpws hpls

/-- Witness for the amended C2: a nonpositive paver width does short-circuit to
the degenerate signal, and the small-viewport run paints the empty list. -/
theorem C2_witness :
    draw ⟨4, 3, 0, 1, some "straight"⟩ 800 600 = DrawResult.degenerate ∧
    ([] : List Rect) = [] :=
  ⟨(C2_degenerate_geometry ⟨4, 3, 0, 1, some "straight"⟩ 800 600).1.mpr
      (Or.inr (Or.inr (Or.inl (by norm_num)))),
    (C2_degenerate_geometry ⟨1, 1, 1, 1, some "straight"⟩ 10 600).2 (by norm_num) (by norm_num)
      (by norm_num) (by norm_num) (Or.inl (by norm_num [padding])) [] draw_unit_smallViewport⟩

/-- Herringbone spec-side candidates on the demo input: 2 × 2 blocks of two
tiles each, eight candidates in row-major block order, A before B. -/
def demoHerringbone8 : List Rect :=
  [⟨20, 20, 560/3, 560/3⟩, ⟨620/3, 20, 560/3, 560/3⟩,
    ⟨1180/3, 20, 560/3, 560/3⟩, ⟨1740/3, 20, 560/3, 560/3⟩,
    ⟨20, 1180/3, 560/3, 560/3⟩, ⟨620/3, 1180/3, 560/3, 560/3⟩,
    ⟨1180/3, 1180/3, 560/3, 560/3⟩, ⟨1740/3, 1180/3, 560/3, 560/3⟩]

lemma demo_ceil_blocks_x :
    (⌈(4:ℚ) * (560 / 3) / (1 * (560 / 3) + 1 * (560 / 3))⌉).toNat = 2 := by
  rw [show ⌈(4:ℚ) * (560 / 3) / (1 * (560 / 3) + 1 * (560 / 3))⌉ = 2 by
    norm_num [Int.ceil_eq_iff]]
  decide

lemma demo_ceil_blocks_y :
    (⌈(3:ℚ) * (560 / 3) / (1 * (560 / 3) + 1 * (560 / 3))⌉).toNat = 2 := by
  rw [show ⌈(3:ℚ) * (560 / 3) / (1 * (560 / 3) + 1 * (560 / 3))⌉ = 2 by
    norm_num [Int.ceil_eq_iff]]
  decide

/-- Herringbone candidates on the demo input, evaluated. -/
lemma demo_herringboneCandidates :
    specHerringboneCandidates propsDemoHerringbone 20 20 (560/3) = demoHerringbone8 := by
  simp only [specHerringboneCandidates, propsDemoHerringbone, demo_ceil_blocks_x,
    demo_ceil_blocks_y]
  simp only [List.range_succ, List.range_zero, List.flatMap_cons, List.flatMap_nil,
    List.append_nil, List.nil_append, List.append_assoc]
  norm_num [demoHerringbone8, Nat.cast_ofNat, Rect.mk.injEq]

/-- C5: the Staggered generator is the Straight grid with `offsetX = -pw/2`
added on odd-indexed rows (`r % 2 ≠ 0`) and no offset on even rows, each
candidate fed through the clipper; on the demo input, the odd row 1's first
column clips to a rectangle starting at `x0 = 20` with width reduced to
`pw/2`, while rows 0 and 2 coincide with the Straight candidates. -/
theorem C5_staggered_generator (props : Props) (xMin yMin xMax yMax scale : ℚ) (row col : ℕ) :
    drawStaggered props xMin yMin xMax yMax scale =
      (specStaggeredCandidates props xMin yMin scale).filterMap
        (clipCandidate xMin yMin xMax yMax) ∧
    specStaggeredCandidate props xMin yMin scale row col =
      ⟨(specStraightCandidate props xMin yMin scale row col).x +
          (if row % 2 ≠ 0 then -(props.paverWidth * scale) / 2 else 0),
        (specStraightCandidate props xMin yMin scale row col).y,
        (specStraightCandidate props xMin yMin scale row col).width,
        (specStraightCandidate props xMin yMin scale row col).height⟩ ∧
    clipCandidate 20 20 (2300/3) 580
        (specStaggeredCandidate propsDemoStaggered 20 20 (560/3) 1 0) =
      some ⟨20, 620/3, 280/3, 560/3⟩ ∧
    specStaggeredCandidate propsDemoStaggered 20 20 (560/3) 0 col =
      specStraightCandidate propsDemoStaggered 20 20 (560/3) 0 col ∧
    specStaggeredCandidate propsDemoStaggered 20 20 (560/3) 2 col =
      specStraightCandidate propsDemoStaggered 20 20 (560/3) 2 col := by
  refine ⟨drawStaggered_eq_clipped_candidates props xMin yMin xMax yMax scale, rfl, ?_, ?_, ?_⟩
  · norm_num [clipCandidate, specStaggeredCandidate, propsDemoStaggered, drawClippedRect,
      Rect.mk.injEq]
  · simp [specStaggeredCandidate, specStraightCandidate]
  · simp [specStaggeredCandidate, specStraightCandidate]

/-- C6: the Herringbone generator uses `block = pl + pw` on both axes with
`nbBlockX = ⌈(W*scale)/block⌉`, `nbBlockY = ⌈(H*scale)/block⌉`, and per block
at `(x0 + c*block, y0 + r*block)` emits tile A `(baseX, baseY, pl, pw)` then
tile B `(baseX+pl, baseY, pw, pl)`, in row-major block order, each through
the clipper; on the demo input this gives the eight listed candidates. -/
theorem C6_herringbone_generator (props : Props) (xMin yMin xMax yMax scale : ℚ) :
    drawHerringbone props xMin yMin xMax yMax scale =
      (specHerringboneCandidates props xMin yMin scale).filterMap
        (clipCandidate xMin yMin xMax yMax) ∧
    specHerringboneCandidates propsDemoHerringbone 20 20 (560/3) = demoHerringbone8 ∧
    demoHerringbone8.length = 8 :=
  ⟨drawHerringbone_eq_clipped_candidates props xMin yMin xMax yMax scale,
    demo_herringboneCandidates, by simp [demoHerringbone8]⟩

/-- C9: when the terrace width is an exact multiple `k` of the paver width and
the scale is positive, every clipped rectangle of an odd-indexed Staggered row
ends at or before `x1 - pw/2`: the one-sided left offset leaves a strip of
width `pw/2` before the plane's right edge unreachable on those rows. -/
theorem C9_staggered_right_gap (props : Props) (cw ch : ℚ) (k row : ℕ) (rect : Rect)
    (hpw : 0 < props.paverWidth)
    (hk : props.terraceWidth = (k : ℚ) * props.paverWidth)
    (hs : 0 < (computeTransform props.terraceWidth props.terraceHeight cw ch).scale)
    (hodd : row % 2 = 1)
    (hrect : rect ∈ staggeredRowRects props
      (computeTransform props.terraceWidth props.terraceHeight cw ch).x0
      (computeTransform props.terraceWidth props.terraceHeight cw ch).y0
      (computeTransform props.terraceWidth props.terraceHeight cw ch).x1
      (computeTransform props.terraceWidth props.terraceHeight cw ch).y1
      (computeTransform props.terraceWidth props.terraceHeight cw ch).scale row) :
    rect.x + rect.width ≤
      (computeTransform props.terraceWidth props.terraceHeight cw ch).x1 -
        props.paverWidth *
          (computeTransform props.terraceWidth props.terraceHeight cw ch).scale / 2 := by
  set t := computeTransform props.terraceWidth props.terraceHeight cw ch with ht
  have hpws : 0 < props.paverWidth * t.scale := mul_pos hpw hs
  have hnb : (⌈props.terraceWidth / props.paverWidth⌉).toNat = k := by
    rw [hk, mul_div_cancel_right₀ _ (ne_of_gt hpw), Int.ceil_natCast]
    exact Int.toNat_natCast k
  simp only [staggeredRowRects] at hrect
  rw [if_pos (by rw [hodd]; exact one_ne_zero)] at hrect
  obtain ⟨col, hcol, hclip⟩ := List.mem_filterMap.mp hrect
  rw [List.mem_range, hnb] at hcol
  rw [drawClippedRect_eq] at hclip
  split_ifs at hclip with hg
  obtain rfl : rect = _ := (Option.some_inj.mp hclip).symm
  dsimp only
  have hcolk : ((col : ℚ)) + 1 ≤ (k : ℚ) := by
    exact_mod_cast Nat.succ_le_of_lt hcol
  have hmul : ((col : ℚ) + 1) * (props.paverWidth * t.scale) ≤
      (k : ℚ) * (props.paverWidth * t.scale) :=
    mul_le_mul_of_nonneg_right hcolk (le_of_lt hpws)
  have hx1 : t.x1 = t.x0 + (k : ℚ) * (props.paverWidth * t.scale) := by
    have h0 : t.x1 = t.x0 + props.terraceWidth * t.scale := rfl
    rw [h0, hk]
    ring
  have hminle : min (t.x0 + (col : ℚ) * (props.paverWidth * t.scale) +
      -(props.paverWidth * t.scale) / 2 + props.paverWidth * t.scale) t.x1 ≤
      t.x0 + (col : ℚ) * (props.paverWidth * t.scale) +
        -(props.paverWidth * t.scale) / 2 + props.paverWidth * t.scale :=
    min_le_left _ _
  nlinarith [hminle, hmul, hx1]

/-- Staggered odd row 1 on the demo input: four clipped rectangles, the first
clamped to start at `x0 = 20` with width `pw/2 = 280/3`. -/
lemma demo_staggeredRow1 :
    staggeredRowRects propsDemoStaggered 20 20 (2300/3) 580 (560/3) 1 =
      [⟨20, 620/3, 280/3, 560/3⟩, ⟨340/3, 620/3, 560/3, 560/3⟩,
        ⟨300, 620/3, 560/3, 560/3⟩, ⟨1460/3, 620/3, 560/3, 560/3⟩] := by
  simp only [staggeredRowRects, propsDemoStaggered, demo_ceil_four]
  simp only [List.range_succ, List.range_zero, List.filterMap_cons, List.filterMap_nil,
    List.append_nil, List.nil_append, List.append_assoc]
  norm_num [drawClippedRect, List.filterMap_cons, List.filterMap_nil, Nat.cast_ofNat,
    Rect.mk.injEq]

/-- Witness for C9: the first clipped rectangle of the demo's odd row 1 indeed
ends at `340/3`, well before `x1 - pw/2 = 2020/3`. -/
theorem C9_witness :
    (Rect.mk 20 (620/3) (280/3) (560/3)).x + (Rect.mk 20 (620/3) (280/3) (560/3)).width ≤
      (computeTransform propsDemoStaggered.terraceWidth propsDemoStaggered.terraceHeight
          800 600).x1 -
        propsDemoStaggered.paverWidth *
          (computeTransform propsDemoStaggered.terraceWidth propsDemoStaggered.terraceHeight
            800 600).scale / 2 :=
  C9_staggered_right_gap propsDemoStaggered 800 600 4 1 ⟨20, 620/3, 280/3, 560/3⟩
    (by norm_num [propsDemoStaggered]) (by norm_num [propsDemoStaggered])
    (by norm_num [propsDemoStaggered, computeTransform_def, padding, min_def]) rfl
    (by rw [show computeTransform propsDemoStaggered.terraceWidth
          propsDemoStaggered.terraceHeight 800 600 = ⟨560/3, 20, 20, 2300/3, 580⟩
          from demo_transform]
        dsimp only
        rw [demo_staggeredRow1]
        simp)

/-- Pattern string is never read by the Straight generator. -/
lemma drawStraight_ignores_pattern (a b c d : ℚ) (p q : Option String)
    (xMin yMin xMax yMax scale : ℚ) :
    drawStraight ⟨a, b, c, d, p⟩ xMin yMin xMax yMax scale =
      drawStraight ⟨a, b, c, d, q⟩ xMin yMin xMax yMax scale := rfl

/-- C10: with valid dimensions, an absent pattern silently defaults to the
Straight variant and produces Straight's full rectangle sequence — it never
reaches the unknown-pattern branch — while a present pattern string outside
the closed set reaches the warn-and-paint-nothing rejection branch. -/
theorem C10_default_pattern (props : Props) (cw ch : ℚ) (s : String)
    (hgeom : ¬(props.terraceWidth ≤ 0 ∨ props.terraceHeight ≤ 0 ∨
      props.paverWidth ≤ 0 ∨ props.paverLength ≤ 0)) :
    (props.pattern = none →
      draw props cw ch = DrawResult.drawn (drawStraight props
        (computeTransform props.terraceWidth props.terraceHeight cw ch).x0
        (computeTransform props.terraceWidth props.terraceHeight cw ch).y0
        (computeTransform props.terraceWidth props.terraceHeight cw ch).x1
        (computeTransform props.terraceWidth props.terraceHeight cw ch).y1
        (computeTransform props.terraceWidth props.terraceHeight cw ch).scale)) ∧
    (props.pattern = some s → s ≠ "straight" → s ≠ "staggered" → s ≠ "herringbone" →
      draw props cw ch = DrawResult.unknownPattern s) := by
  constructor
  · intro hp
    exact draw_eq_straight cw ch (by rw [hp]; rfl) hgeom
  · intro hp h1 h2 h3
    unfold draw
    rw [if_neg hgeom, hp]
    simp only [Option.getD_some]
    rw [if_neg h1, if_neg h2, if_neg h3]

/-- Witness for C10: the absent-pattern demo run paints the full Straight
sequence, and the unknown string `"zigzag"` is rejected. -/
theorem C10_witness :
    draw ⟨4, 3, 1, 1, none⟩ 800 600 = DrawResult.drawn demoRects12 ∧
    draw ⟨4, 3, 1, 1, some "zigzag"⟩ 800 600 = DrawResult.unknownPattern "zigzag" := by
  constructor
  · rw [(C10_default_pattern ⟨4, 3, 1, 1, none⟩ 800 600 "zigzag" (by norm_num)).1 rfl]
    rw [show computeTransform (Props.mk 4 3 1 1 none).terraceWidth
        (Props.mk 4 3 1 1 none).terraceHeight 800 600 = ⟨560/3, 20, 20, 2300/3, 580⟩
        from demo_transform]
    dsimp only
    rw [drawStraight_ignores_pattern 4 3 1 1 none (some "straight")]
    exact congrArg DrawResult.drawn demo_drawStraight
  · exact (C10_default_pattern ⟨4, 3, 1, 1, some "zigzag"⟩ 800 600 "zigzag"
      (by norm_num)).2 rfl (by simp) (by simp) (by simp)
